import Mathlib

/-
Verification of the result-resolution pipeline of express-router-api
(TypeScript source: src/index.ts, referred to below by its line numbers).

The embedding models the JavaScript runtime values the pipeline manipulates
as the inductive type `JsValue`.  Asynchrony is collapsed: a promise or an
observable that will settle with value `v` is `deferredOk v`, one that will
reject or error with `e` is `deferredErr e`.  A user handler or formatter
call is modelled by its outcome, `Except JsValue JsValue`: `.error e` is a
synchronous throw of `e`, `.ok v` a returned value (possibly deferred).
Every rxjs stage of the pipeline (switchMap / map / catchError over a
single-emission source) becomes a function on `Except JsValue JsValue`.
-/

set_option autoImplicit false

namespace ExpressRouterApi

/-- Model of a JavaScript runtime value as seen by the pipeline.  Promises and
observables are collapsed to their settlement (`deferredOk` / `deferredErr`).
`apiError`, `routerError` and `genericError` are instances of `ApiError`,
`ExpressApiRouterError` and plain `Error` respectively; `apiResponse` is an
`ApiResponse` instance (src/index.ts lines 11-40). -/
inductive JsValue where
  | undefinedV
  | nullV
  | boolV (b : Bool)
  | numV (n : Int)
  | strV (s : String)
  | arrV (elems : List JsValue)
  | objV (fields : List (String × JsValue))
  | apiNext
  | apiResponse (apiResult : JsValue) (code : Nat)
  | apiError (payload : JsValue) (statusCode : Nat)
  | routerError (message : String)
  | genericError (message : String)
  | deferredOk (value : JsValue)
  | deferredErr (error : JsValue)

namespace JsValue

/-- JavaScript truthiness of a value. -/
def truthy : JsValue → Bool
  | undefinedV | nullV => false
  | boolV b => b
  | numV n => decide (n ≠ 0)
  | strV s => decide (s ≠ "")
  | _ => true

/-- Whether `typeof v` evaluates to the string `object` (true for `null`,
arrays, plain objects, class instances, promises and observables). -/
def typeofObject : JsValue → Bool
  | nullV | arrV _ | objV _ | apiResponse _ _ | apiError _ _
  | routerError _ | genericError _ | deferredOk _ | deferredErr _ => true
  | _ => false

/-- Reading the `statusCode` property of a value, with `0` standing for the
falsy reads (`undefined` on objects that lack the property).  Only `ApiError`
instances carry a `statusCode` field (src/index.ts line 22). -/
def statusCodeOf : JsValue → Nat
  | apiError _ c => c
  | _ => 0

/-- The `instanceof ApiError` test.  `ApiError`'s constructor restores its own
prototype (src/index.ts line 30), so the test recognises exactly its
instances. -/
def instanceOfApiError : JsValue → Bool
  | apiError _ _ => true
  | _ => false

/-- The `instanceof ApiResponse` test. -/
def instanceOfApiResponse : JsValue → Bool
  | apiResponse _ _ => true
  | _ => false

/-- The `instanceof Array` test. -/
def instanceOfArray : JsValue → Bool
  | arrV _ => true
  | _ => false

/-- The `err instanceof ExpressApiRouterError` test (src/index.ts line 153).
The `ExpressApiRouterError` constructor executes
`Object.setPrototypeOf(this, ExpressApiRouter.prototype)` (line 17) — the
prototype of the router factory function, not
`ExpressApiRouterError.prototype` (contrast `ApiError`, line 30, which
restores its own).  Consequently no value, not even one built by
`new ExpressApiRouterError(...)`, has `ExpressApiRouterError.prototype` on
its prototype chain, and the test is false for every value. -/
def instanceOfRouterError (_ : JsValue) : Bool := false

/-- The `message` property of the error values of the model (each constructor
assigns `this.message`; for `ApiError` the payload is stored there,
src/index.ts line 26). -/
def messageOf : JsValue → JsValue
  | apiError p _ => p
  | routerError m => strV m
  | genericError m => strV m
  | _ => undefinedV

end JsValue

open JsValue

/-- Outcome of calling a user-supplied formatter: `.error e` models a
synchronous throw, `.ok v` a returned value (possibly a promise or an
observable, i.e. `deferredOk` / `deferredErr`). -/
abbrev Formatter := JsValue → Except JsValue JsValue

/-- The `resolve` helper (src/index.ts lines 57-65): an observable is used as
is, a promise is adapted with `from`, anything else is wrapped with `of`.
In the model both deferred shapes settle to their payload, and a plain value
is emitted unchanged. -/
def resolve : JsValue → Except JsValue JsValue
  | deferredOk v => .ok v
  | deferredErr e => .error e
  | v => .ok v

/-- A `defer(() => resolve(f(...)))` call of a user formatter: a synchronous
throw becomes an error notification, a returned value is passed through
`resolve`. -/
def callFormatter (f : Formatter) (v : JsValue) : Except JsValue JsValue :=
  match f v with
  | .error e => .error e
  | .ok r => resolve r

/-- Router options (src/index.ts lines 50-55).  `internalServerError` keeps
its JavaScript reading: `undefinedV` when the option is absent. -/
structure ApiRouterOptions where
  errorFormatter : Option Formatter := none
  successFormatter : Option Formatter := none
  silenceExpressApiRouterError : Bool := false
  internalServerError : JsValue := .undefinedV

/-- The default error formatter `(err) => of(undefined)` (src/index.ts
line 206). -/
def defaultErrorFormatter : Formatter := fun _ => .ok (deferredOk undefinedV)

/-- The default success formatter `(data) => of(data)` (src/index.ts
line 207). -/
def defaultSuccessFormatter : Formatter := fun d => .ok (deferredOk d)

/-- The formatter state the `ExpressApiRouter` factory installs on the router
(src/index.ts lines 249-254): a configured formatter, or the default. -/
structure RouterState where
  errorFormatter : Formatter
  successFormatter : Formatter

/-- Router construction (src/index.ts lines 246-254). -/
def mkRouter (opts : ApiRouterOptions) : RouterState where
  errorFormatter := opts.errorFormatter.getD defaultErrorFormatter
  successFormatter := opts.successFormatter.getD defaultSuccessFormatter

/-- The `internalServerError` constant of `toMiddleware` (src/index.ts
line 107): `options.internalServerError || {error: 'Internal server error'}`. -/
def internalServerErrorOf (opts : ApiRouterOptions) : JsValue :=
  if truthy opts.internalServerError then opts.internalServerError
  else objV [("error", strV "Internal server error")]

/-- The `processApiError` helper (src/index.ts lines 109-114): run the error
formatter on the `ApiError`; a truthy formatted value becomes
`new ApiResponse(formatted)` (default code 200), otherwise
`new ApiResponse(err.message, err.statusCode || 500)`. -/
def processApiError (st : RouterState) (payload : JsValue) (code : Nat) :
    Except JsValue JsValue :=
  (callFormatter st.errorFormatter (apiError payload code)).map fun formatted =>
    if truthy formatted then apiResponse formatted 200
    else apiResponse payload (if code = 0 then 500 else code)

/-- The `formatError` helper (src/index.ts lines 124-130).  The router factory
always installs an error formatter (line 249), so `this.errorFormatter` is
always truthy and the formatting branch is always taken; the formatted value
is wrapped as `new ApiResponse(formatted, (err as any).statusCode || 500)`. -/
def formatError (st : RouterState) (err : JsValue) : Except JsValue JsValue :=
  (callFormatter st.errorFormatter err).map fun formatted =>
    apiResponse formatted (if statusCodeOf err = 0 then 500 else statusCodeOf err)

/-- The `isPlainObject` predicate of `toMiddleware` (src/index.ts
lines 132-137). -/
def isPlainObject (obj : JsValue) : Bool :=
  typeofObject obj && !instanceOfApiResponse obj &&
    !instanceOfApiError obj && !instanceOfArray obj

/-- The per-key fan-out/fan-in of `promiseProps` (src/index.ts lines 72-76):
each field value goes through `resolve`, the join waits for all of them
(`forkJoin`), and the single-key partial objects are merged back in key
order (`Object.assign`).  If any field fails, the join fails with that
field's error. -/
def collectFields : List (String × JsValue) → Except JsValue (List (String × JsValue))
  | [] => .ok []
  | kv :: rest =>
    match resolve kv.2 with
    | .error e => .error e
    | .ok v => (collectFields rest).map fun vs => (kv.1, v) :: vs

/-- The `promiseProps` combinator (src/index.ts lines 67-77): a mapping with
zero keys completes immediately with the mapping itself; otherwise the
fields go through the `collectFields` fan-in.  Only one deferred layer per
field is resolved; the combinator does not recurse into resolved field
values.  `Object.keys(null)` throws a `TypeError`; other non-mapping
objects reaching the combinator (promises, streams) expose no own
enumerable keys and complete immediately with the object itself. -/
def promiseProps : JsValue → Except JsValue JsValue
  | objV fields =>
    if fields.isEmpty then .ok (objV fields)
    else (collectFields fields).map objV
  | nullV => .error (genericError "TypeError: Cannot convert undefined or null to object")
  | v => .ok v

/-- The deep-resolution step of the pipeline (src/index.ts lines 140-142):
plain mappings go through `promiseProps`, anything else through `resolve`. -/
def deepStage (obj : JsValue) : Except JsValue JsValue :=
  if isPlainObject obj then promiseProps obj else resolve obj

/-- The `formatterOperator` success-formatter stage (src/index.ts
lines 117-122): the `ApiNext` sentinel bypasses the success formatter,
everything else is formatted and the result resolved. -/
def formatterOperator (st : RouterState) (data : JsValue) : Except JsValue JsValue :=
  match data with
  | apiNext => .ok apiNext
  | d => callFormatter st.successFormatter d

/-- The classification stage (src/index.ts lines 144-151): an `ApiError`
value is routed through `processApiError`, a non-`ApiResponse` value is
wrapped as `new ApiResponse(data, 200)`, an `ApiResponse` passes through. -/
def classify (st : RouterState) : JsValue → Except JsValue JsValue
  | apiError p c => processApiError st p c
  | apiResponse r c => .ok (apiResponse r c)
  | d => .ok (apiResponse d 200)

/-- Diagnostic side effects of the pipeline: `res.emit('expressApiRouterError', err)`
events and `console.error(err.stack)` log lines. -/
structure Diag where
  emitted : List JsValue := []
  logged : List JsValue := []

/-- The first catch stage (src/index.ts lines 152-165): an
`instanceof ExpressApiRouterError` failure is emitted on the diagnostic
channel, logged unless silenced, and replaced by `of(undefined)`; an
`instanceof ApiError` failure goes through `processApiError`; anything else
is rethrown.  (The first branch is unreachable: see
`JsValue.instanceOfRouterError`.) -/
def catchStage1 (st : RouterState) (opts : ApiRouterOptions)
    (r : Except JsValue JsValue) : Except JsValue JsValue × Diag :=
  match r with
  | .ok v => (.ok v, {})
  | .error err =>
    if instanceOfRouterError err then
      (.ok undefinedV,
       { emitted := [err]
         logged := if opts.silenceExpressApiRouterError then [] else [err] })
    else
      match err with
      | apiError p c => (processApiError st p c, {})
      | t => (.error t, {})

/-- The second catch stage (src/index.ts lines 166-170): format the failure;
the result is wrapped as
`new ApiResponse(jsonError || internalServerError, (jsonError && jsonError.statusCode) || 500)`.
(An `ApiResponse` stores its code in `code`, not `statusCode`, so the
`statusCode` read on a formatted value yields the falsy `undefined`.) -/
def catchStage2 (st : RouterState) (opts : ApiRouterOptions) :
    Except JsValue JsValue → Except JsValue JsValue
  | .ok v => .ok v
  | .error err =>
    (formatError st err).map fun jsonError =>
      apiResponse
        (if truthy jsonError then jsonError else internalServerErrorOf opts)
        (if (if truthy jsonError then statusCodeOf jsonError else 0) = 0 then 500
         else statusCodeOf jsonError)

/-- The terminal catch stage (src/index.ts lines 171-173):
`of(new ApiResponse(internalServerError, (err as any).statusCode || 500))`.
It never fails, so the pipeline always delivers exactly one value. -/
def catchStage3 (opts : ApiRouterOptions) : Except JsValue JsValue → JsValue
  | .ok v => v
  | .error err =>
    apiResponse (internalServerErrorOf opts)
      (if statusCodeOf err = 0 then 500 else statusCodeOf err)

/-- The success path of the pipeline before classification (src/index.ts
lines 138-143): resolve the handler outcome, apply the deep-resolution step,
then the success formatter. -/
def successPath (st : RouterState) (handler : Except JsValue JsValue) :
    Except JsValue JsValue :=
  ((handler.bind resolve).bind deepStage).bind (formatterOperator st)

/-- The full pipeline of `toMiddleware` (src/index.ts lines 138-174): the
value delivered to the subscriber, together with the diagnostic effects. -/
def runPipeline (st : RouterState) (opts : ApiRouterOptions)
    (handler : Except JsValue JsValue) : JsValue × Diag :=
  let s3 := (successPath st handler).bind (classify st)
  let r4 := catchStage1 st opts s3
  (catchStage3 opts (catchStage2 st opts r4.1), r4.2)

/-- One operation on the HTTP response sink. -/
inductive SinkOp where
  | setStatus (code : Nat)
  | writeJson (v : JsValue)
  | writeString (s : String)
  | endNoBody

/-- Whether a sink operation writes (or ends) the body. -/
def SinkOp.isBodyWrite : SinkOp → Bool
  | .setStatus _ => false
  | _ => true

/-- The `sendApiResponse` emitter (src/index.ts lines 79-102), returning the
`wasWritten` boolean together with the sink operations it performs, in
order.  An `undefined` response, an `undefined` payload or the `ApiNext`
sentinel write nothing; a nested `ApiResponse` payload is unwrapped one
level; then the status is set and the body written as JSON for objects, raw
for strings, or the response is ended without a body. -/
def sendApiResponse : JsValue → Bool × List SinkOp
  | undefinedV => (false, [])
  | apiResponse r c =>
    match r with
    | undefinedV => (false, [])
    | apiNext => (false, [])
    | r =>
      let unwrapped := match r with
        | apiResponse ri ci => (ri, ci)
        | _ => (r, c)
      if typeofObject unwrapped.1 then
        (true, [.setStatus unwrapped.2, .writeJson unwrapped.1])
      else
        match unwrapped.1 with
        | strV s => (true, [.setStatus unwrapped.2, .writeString s])
        | _ => (true, [.setStatus unwrapped.2, .endNoBody])
  | _ => (false, [])

/-- Whether the `apiResult` of a delivered value is the `ApiNext` sentinel
(the `apiResponse.apiResult === ApiNext` read of src/index.ts line 177). -/
def apiResultIsApiNext : JsValue → Bool
  | apiResponse apiNext _ => true
  | _ => false

/-- Observable outcome of one wrapped handler invocation. -/
structure Outcome where
  ops : List SinkOp
  written : Bool
  calledNext : Bool
  emitted : List JsValue
  logged : List JsValue

/-- A wrapped handler invocation swallows the result when it neither writes a
response nor invokes the next handler. -/
def Outcome.swallowed (o : Outcome) : Bool := !o.written && !o.calledNext

/-- One invocation of the middleware produced by `toMiddleware` (src/index.ts
lines 116-183): run the pipeline, deliver the value to `sendApiResponse`,
and, when nothing was written, call `next()` if `callNext` is set or the
delivered value carries the `ApiNext` sentinel (lines 175-181). -/
def invoke (st : RouterState) (opts : ApiRouterOptions) (callNext : Bool)
    (handler : Except JsValue JsValue) : Outcome :=
  let (delivered, diag) := runPipeline st opts handler
  let sent := sendApiResponse delivered
  { ops := sent.2
    written := sent.1
    calledNext := !sent.1 && (callNext || (truthy delivered && apiResultIsApiNext delivered))
    emitted := diag.emitted
    logged := diag.logged }

/-- Payload shapes for which the emitter writes the payload itself as the
body: strings (`res.send`) and JSON-serialisable object shapes (`res.json`)
that are not an `ApiResponse` (which the emitter would unwrap instead).
This covers the declared payload type of `ApiError` (a string) and the
object payloads the pipeline is exercised with. -/
def isWritablePayload : JsValue → Bool
  | strV _ | nullV | arrV _ | objV _ => true
  | _ => false

/-- The sink operation the emitter uses to write payload `v` as the body. -/
def writeOpFor (v : JsValue) : SinkOp :=
  match v with
  | strV s => .writeString s
  | v => if typeofObject v then .writeJson v else .endNoBody

end ExpressRouterApi

namespace ExpressRouterApi
open JsValue

/-- Exactly one of three booleans is set. -/
def ExactlyOne (a b c : Bool) : Prop :=
  (a = true ∧ b = false ∧ c = false) ∨ (a = false ∧ b = true ∧ c = false) ∨
    (a = false ∧ b = false ∧ c = true)

/-- Whether a value is a rejected or erroring deferred value. -/
def isDeferredErr : JsValue → Bool
  | deferredErr _ => true
  | _ => false

/-- One level of settlement of a non-failing field value: a deferred value
yields its payload, a literal stays put. -/
def resolveLeaf : JsValue → JsValue
  | deferredOk v => v
  | v => v

/-- Error formatter that rethrows a fixed domain error, as in the test-suite
scenario of src/test.js lines 200-214. -/
def rethrowingFormatter : Formatter :=
  fun _ => .error (apiError (objV [("message", strV "foo")]) 403)

/-- Options configuring `rethrowingFormatter`. -/
def rethrowingOpts : ApiRouterOptions := { errorFormatter := some rethrowingFormatter }

/-- Error formatter that itself fails with a non-domain error. -/
def throwingFormatter : Formatter := fun _ => .error (genericError "boom")

/-- Options configuring `throwingFormatter`. -/
def throwingOpts : ApiRouterOptions := { errorFormatter := some throwingFormatter }

/-- Success formatter that replaces every payload by the literal `null`. -/
def nullReturningFormatter : Formatter := fun _ => .ok nullV

/-- Options configuring `nullReturningFormatter`. -/
def nullOpts : ApiRouterOptions := { successFormatter := some nullReturningFormatter }

/-- A mapping with one nested deferred-mapping field and one literal field. -/
def nestedFields : List (String × JsValue) :=
  [("f", deferredOk (objV [("g", deferredOk (strV "leaf"))])), ("lit", strV "x")]

theorem resolve_of_not_err (v : JsValue) (h : isDeferredErr v = false) :
    resolve v = .ok (resolveLeaf v) := by
  cases v <;> simp_all [resolve, resolveLeaf, isDeferredErr]

theorem statusCodeOf_eq_zero (v : JsValue) (h : instanceOfApiError v = false) :
    statusCodeOf v = 0 := by
  cases v <;> simp_all [statusCodeOf, instanceOfApiError]

theorem collectFields_of_not_err (fields : List (String × JsValue))
    (h : ∀ kv ∈ fields, isDeferredErr kv.2 = false) :
    collectFields fields = .ok (fields.map fun kv => (kv.1, resolveLeaf kv.2)) := by
  induction fields with
  | nil => rfl
  | cons a t ih =>
    have ha := h a (List.mem_cons_self a t)
    have ht := ih fun kv hkv => h kv (List.mem_cons_of_mem a hkv)
    simp [collectFields, resolve_of_not_err a.2 ha, ht, Except.map]

theorem sendApiResponse_shape (v : JsValue) :
    (sendApiResponse v).2 = [] ∨
      ∃ c b, (sendApiResponse v).2 = [SinkOp.setStatus c, b] ∧
        SinkOp.isBodyWrite b = true := by
  rcases v with _|_|_|_|_|_|_|_|⟨r,c⟩|_|_|_|_|_
  case apiResponse =>
    rcases r with _|_|_|_|_|_|_|_|⟨ri,ci⟩|_|_|_|_|_
    case apiResponse =>
      rcases ri with _|_|_|_|_|_|_|_|_|_|_|_|_|_ <;>
        exact Or.inr ⟨_, _, rfl, rfl⟩
    all_goals first | exact Or.inl rfl | exact Or.inr ⟨_, _, rfl, rfl⟩
  all_goals exact Or.inl rfl

/-- C1: a handler that raises a Domain Error (`ApiError`) with payload `P` and
a nonzero status code `C`, on a router with no error formatter configured,
produces a response with status `C` and body `P` (raw for a string payload,
JSON for an object payload); nothing is emitted, logged or passed on. -/
theorem domainErrorPreserved (P : JsValue) (C : Nat) (opts : ApiRouterOptions)
    (callNext : Bool) (hef : opts.errorFormatter = none) (hC : C ≠ 0)
    (hP : isWritablePayload P = true) :
    invoke (mkRouter opts) opts callNext (.error (apiError P C)) =
      { ops := [.setStatus C, writeOpFor P], written := true, calledNext := false,
        emitted := [], logged := [] } := by
  have hpipe : runPipeline (mkRouter opts) opts (.error (apiError P C)) =
      (apiResponse P C, {}) := by
    simp [runPipeline, successPath, catchStage1, catchStage2, catchStage3, processApiError,
          callFormatter, defaultErrorFormatter, resolve, mkRouter, hef, instanceOfRouterError,
          truthy, Except.bind, Except.map, formatterOperator, deepStage, hC]
  cases P <;> simp_all [invoke, sendApiResponse, writeOpFor, typeofObject, isWritablePayload,
    truthy, apiResultIsApiNext]

/-- Witness for C1 at payload `{error: "test"}` and status 403. -/
theorem domainErrorPreserved_witness :
    ({} : ApiRouterOptions).errorFormatter = none ∧ (403 : Nat) ≠ 0 ∧
    isWritablePayload (objV [("error", strV "test")]) = true ∧
    invoke (mkRouter {}) {} false
        (.error (apiError (objV [("error", strV "test")]) 403)) =
      { ops := [.setStatus 403, writeOpFor (objV [("error", strV "test")])],
        written := true, calledNext := false, emitted := [], logged := [] } :=
  ⟨rfl, by decide, rfl,
    domainErrorPreserved (objV [("error", strV "test")]) 403 {} false rfl (by decide) rfl⟩

/-- C2: every wrapped handler invocation ends in exactly one of the three
terminal outcomes — response written, next handler called, or silently
swallowed — and a handler returning `undefined` on a default router ends in
the swallowed outcome: no response and no next-handler call. -/
theorem invocationExactlyOneOutcome (st : RouterState) (opts : ApiRouterOptions)
    (callNext : Bool) (handler : Except JsValue JsValue) :
    ExactlyOne (invoke st opts callNext handler).written
      (invoke st opts callNext handler).calledNext
      (invoke st opts callNext handler).swallowed ∧
    invoke (mkRouter {}) {} false (.ok undefinedV) =
      { ops := [], written := false, calledNext := false, emitted := [], logged := [] } := by
  refine ⟨?_, rfl⟩
  unfold ExactlyOne Outcome.swallowed invoke
  cases hw : (sendApiResponse (runPipeline st opts handler).1).1 <;>
    cases hn : (callNext ||
      (truthy (runPipeline st opts handler).1 &&
        apiResultIsApiNext (runPipeline st opts handler).1)) <;>
    simp [hw, hn]

/-- C3 counterexample: a handler returning a deferred mapping whose field is
itself a deferred mapping with a deferred leaf gets a response body in which
the inner deferred value is still unresolved — not the fully resolved
literal structure the claim requires. -/
theorem deepResolutionNotRecursiveCex :
    (invoke (mkRouter {}) {} false
      (.ok (deferredOk (objV
        [("f", deferredOk (objV [("g", deferredOk (strV "leaf"))]))])))).ops =
      [.setStatus 200,
       .writeJson (objV [("f", objV [("g", deferredOk (strV "leaf"))])])] ∧
    objV [("f", objV [("g", deferredOk (strV "leaf"))])] ≠
      objV [("f", objV [("g", strV "leaf")])] := by
  refine ⟨rfl, ?_⟩
  simp

/-- C3 amended: resolution unwraps the top-level deferred wrapper and exactly
one deferred layer per field of a top-level plain mapping; it does not
recurse into the resolved field values, so deferred values nested deeper
are passed through unresolved into the 200-status JSON body. -/
theorem deepResolutionOneLevel (fields : List (String × JsValue)) (callNext : Bool)
    (h : ∀ kv ∈ fields, isDeferredErr kv.2 = false) :
    invoke (mkRouter {}) {} callNext (.ok (deferredOk (objV fields))) =
      { ops := [.setStatus 200,
                .writeJson (objV (fields.map fun kv => (kv.1, resolveLeaf kv.2)))],
        written := true, calledNext := false, emitted := [], logged := [] } := by
  have hm := collectFields_of_not_err fields h
  cases fields with
  | nil => rfl
  | cons a t =>
    simp [invoke, runPipeline, successPath, deepStage, isPlainObject, typeofObject,
      instanceOfApiResponse, instanceOfApiError, instanceOfArray, promiseProps, hm,
      Except.bind, Except.map, resolve, formatterOperator, mkRouter, defaultSuccessFormatter,
      callFormatter, classify, catchStage1, catchStage2, catchStage3, sendApiResponse,
      truthy, apiResultIsApiNext]

/-- Witness for the amended C3 at a two-field mapping with a nested deferred
mapping: one layer is resolved, the inner deferred leaf survives. -/
theorem deepResolutionOneLevel_witness :
    (∀ kv ∈ nestedFields, isDeferredErr kv.2 = false) ∧
    invoke (mkRouter {}) {} false (.ok (deferredOk (objV nestedFields))) =
      { ops := [.setStatus 200,
                .writeJson (objV (nestedFields.map fun kv => (kv.1, resolveLeaf kv.2)))],
        written := true, calledNext := false, emitted := [], logged := [] } := by
  have h : ∀ kv ∈ nestedFields, isDeferredErr kv.2 = false := by
    simp [nestedFields, isDeferredErr]
  exact ⟨h, deepResolutionOneLevel nestedFields false h⟩

/-- C4 counterexample: with an error formatter that rethrows
`ApiError({message: "foo"}, 403)` on a non-domain failure, the response body
is the internal-server-error fallback, not the formatter-raised domain
error's payload. -/
theorem formatterThrownApiErrorPayloadLostCex :
    (invoke (mkRouter rethrowingOpts) rethrowingOpts false
      (.error (genericError "foo"))).ops =
      [.setStatus 403, .writeJson (objV [("error", strV "Internal server error")])] ∧
    objV [("error", strV "Internal server error")] ≠ objV [("message", strV "foo")] := by
  refine ⟨rfl, ?_⟩
  simp

/-- C4 amended: when the configured error formatter rethrows a Domain Error
with nonzero status `C2` while formatting a non-domain failure, the
response has status `C2` (the formatter-raised error's status code wins)
but its body is the configured internal-server-error fallback payload, not
the domain error's payload. -/
theorem formatterThrownApiErrorStatusWins (m : String) (P2 : JsValue) (C2 : Nat)
    (opts : ApiRouterOptions) (callNext : Bool) (hC : C2 ≠ 0)
    (hef : opts.errorFormatter = some (fun _ => .error (apiError P2 C2)))
    (hise : isWritablePayload (internalServerErrorOf opts) = true) :
    invoke (mkRouter opts) opts callNext (.error (genericError m)) =
      { ops := [.setStatus C2, writeOpFor (internalServerErrorOf opts)],
        written := true, calledNext := false, emitted := [], logged := [] } := by
  have hpipe : runPipeline (mkRouter opts) opts (.error (genericError m)) =
      (apiResponse (internalServerErrorOf opts) C2, {}) := by
    simp [runPipeline, successPath, catchStage1, catchStage2, catchStage3, formatError,
          callFormatter, mkRouter, hef, instanceOfRouterError, statusCodeOf,
          Except.bind, Except.map, hC]
  rcases hv : internalServerErrorOf opts <;>
    simp_all [invoke, sendApiResponse, writeOpFor, typeofObject, isWritablePayload,
      truthy, apiResultIsApiNext]

/-- Witness for the amended C4 at the rethrowing formatter of the test-suite
scenario. -/
theorem formatterThrownApiErrorStatusWins_witness :
    (403 : Nat) ≠ 0 ∧
    rethrowingOpts.errorFormatter =
      some (fun _ => .error (apiError (objV [("message", strV "foo")]) 403)) ∧
    isWritablePayload (internalServerErrorOf rethrowingOpts) = true ∧
    invoke (mkRouter rethrowingOpts) rethrowingOpts false
        (.error (genericError "foo")) =
      { ops := [.setStatus 403, writeOpFor (internalServerErrorOf rethrowingOpts)],
        written := true, calledNext := false, emitted := [], logged := [] } :=
  ⟨by decide, rfl, rfl,
    formatterThrownApiErrorStatusWins "foo" (objV [("message", strV "foo")]) 403
      rethrowingOpts false (by decide) rfl rfl⟩

/-- C5: when the configured error formatter itself raises a non-domain error
while formatting a non-domain failure, the response has status 500 and the
configured internal-server-error fallback payload as body; the terminal
catch stage absorbs the secondary failure and a response is always
written. -/
theorem formatterNondomainFailureFallback500 (m : String) (e2 : JsValue)
    (f : Formatter) (opts : ApiRouterOptions) (callNext : Bool)
    (hef : opts.errorFormatter = some f)
    (hthrow : f (genericError m) = .error e2)
    (hnd : instanceOfApiError e2 = false)
    (hise : isWritablePayload (internalServerErrorOf opts) = true) :
    invoke (mkRouter opts) opts callNext (.error (genericError m)) =
      { ops := [.setStatus 500, writeOpFor (internalServerErrorOf opts)],
        written := true, calledNext := false, emitted := [], logged := [] } := by
  have hpipe : runPipeline (mkRouter opts) opts (.error (genericError m)) =
      (apiResponse (internalServerErrorOf opts) 500, {}) := by
    rcases e2 <;>
      simp_all [runPipeline, successPath, catchStage1, catchStage2, catchStage3, formatError,
        callFormatter, mkRouter, instanceOfRouterError, instanceOfApiError, statusCodeOf,
        Except.bind, Except.map]
  rcases hv : internalServerErrorOf opts <;>
    simp_all [invoke, sendApiResponse, writeOpFor, typeofObject, isWritablePayload,
      truthy, apiResultIsApiNext]

/-- Witness for C5 at a formatter that throws a plain error. -/
theorem formatterNondomainFailureFallback500_witness :
    throwingOpts.errorFormatter = some throwingFormatter ∧
    throwingFormatter (genericError "foo") = .error (genericError "boom") ∧
    instanceOfApiError (genericError "boom") = false ∧
    isWritablePayload (internalServerErrorOf throwingOpts) = true ∧
    invoke (mkRouter throwingOpts) throwingOpts false
        (.error (genericError "foo")) =
      { ops := [.setStatus 500, writeOpFor (internalServerErrorOf throwingOpts)],
        written := true, calledNext := false, emitted := [], logged := [] } :=
  ⟨rfl, rfl, rfl, rfl,
    formatterNondomainFailureFallback500 "foo" (genericError "boom")
      throwingFormatter throwingOpts false rfl rfl rfl rfl⟩

/-- C6: evaluation of the code at the failing input.  A handler that throws
`new ExpressApiRouterError("w")` on a default router (warnings not
silenced) does NOT get the documented internal-warning treatment: nothing
is emitted on the diagnostic channel, nothing is logged, the invocation is
not swallowed — instead a status-500 response with an empty body is
written.  The cause is src/index.ts line 17, which sets the prototype of
`ExpressApiRouterError` instances to `ExpressApiRouter.prototype`, so the
`err instanceof ExpressApiRouterError` test of line 153 never matches. -/
theorem routerErrorNotSwallowed :
    invoke (mkRouter {}) {} false (.error (routerError "w")) =
      { ops := [.setStatus 500, .endNoBody], written := true, calledNext := false,
        emitted := [], logged := [] } := rfl

/-- C7: a handler returning the `ApiNext` sentinel writes nothing (the
emitter returns false and performs no sink operation) and the next handler
in the chain is invoked, on any router state and options. -/
theorem apiNextSkipsResponseAndCallsNext (st : RouterState) (opts : ApiRouterOptions)
    (callNext : Bool) :
    invoke st opts callNext (.ok apiNext) =
      { ops := [], written := false, calledNext := true, emitted := [], logged := [] } := by
  simp [invoke, runPipeline, successPath, deepStage, isPlainObject, typeofObject,
    resolve, formatterOperator, classify, catchStage1, catchStage2, catchStage3,
    sendApiResponse, truthy, apiResultIsApiNext, Except.bind]

/-- C8: the empty mapping completes the zero-key fan-in immediately with the
empty mapping itself, and the invocation writes a 200 response whose body
is the empty mapping. -/
theorem emptyMappingImmediate200 :
    promiseProps (objV []) = .ok (objV []) ∧
    invoke (mkRouter {}) {} false (.ok (objV [])) =
      { ops := [.setStatus 200, .writeJson (objV [])], written := true,
        calledNext := false, emitted := [], logged := [] } :=
  ⟨rfl, rfl⟩

/-- C9: in every branch of the response emitter at most one body write is
performed, and whenever a body write happens the sink status has been set
before it (the operation trace is exactly status-then-write). -/
theorem emitterSingleWriteStatusFirst (v : JsValue) :
    List.countP SinkOp.isBodyWrite (sendApiResponse v).2 ≤ 1 ∧
    ((sendApiResponse v).2 = [] ∨
      ∃ c b, (sendApiResponse v).2 = [SinkOp.setStatus c, b] ∧
        SinkOp.isBodyWrite b = true) := by
  refine ⟨?_, sendApiResponse_shape v⟩
  rcases sendApiResponse_shape v with h | ⟨c, b, h, hb⟩
  · simp [h]
  · rw [h]
    rcases b <;> simp [List.countP_cons, List.countP_nil, SinkOp.isBodyWrite]

/-- C10: an invocation whose classified payload is the literal `null` treats
it as a structured value: status 200 is set, the JSON serialisation of
`null` is written as the body, and the emitter reports a written
response. -/
theorem nullPayloadEmittedAsJson (st : RouterState) (opts : ApiRouterOptions)
    (callNext : Bool) (handler : Except JsValue JsValue)
    (h : successPath st handler = .ok nullV) :
    invoke st opts callNext handler =
      { ops := [.setStatus 200, .writeJson nullV], written := true, calledNext := false,
        emitted := [], logged := [] } := by
  simp [invoke, runPipeline, h, classify, catchStage1, catchStage2, catchStage3,
    sendApiResponse, typeofObject, truthy, apiResultIsApiNext, Except.bind]

/-- Witness for C10: a success formatter replacing the payload by `null`. -/
theorem nullPayloadEmittedAsJson_witness :
    successPath (mkRouter nullOpts) (.ok (strV "x")) = .ok nullV ∧
    invoke (mkRouter nullOpts) nullOpts false (.ok (strV "x")) =
      { ops := [.setStatus 200, .writeJson nullV], written := true, calledNext := false,
        emitted := [], logged := [] } :=
  ⟨rfl, nullPayloadEmittedAsJson (mkRouter nullOpts) nullOpts false (.ok (strV "x")) rfl⟩

end ExpressRouterApi
